import Mathlib

/-!
A verification development for the fleet-risk-intelligence real-time risk
pipeline: the Risk Classifier, Batch Scanner, Score Aggregator, Alert
Emitter and Connection Hub are shallowly embedded from the Go sources
(services/risk-engine/main.go and services/websocket/main.go), with Go
float64 values modelled as rationals, Go time values as integers
(seconds), and the relational store as explicit in-memory tables.
String-formatted description/message fields of the Go records, which no
property below observes, are omitted from the embedded records.
-/

namespace FleetRisk

/-! ## Data model (pkg/models/models.go) -/

/-- Embeds models.TelemetryEvent: one raw telemetry sample. -/
structure TelemetryEvent where
  id : Nat
  vehicleId : Nat
  eventType : String
  timestamp : Int
  latitude : Option ℚ
  longitude : Option ℚ
  speed : Option ℚ
  acceleration : Option ℚ
  processedAt : Option Int
  createdAt : Int
deriving Repr, DecidableEq

/-- Embeds models.RiskEvent: one detected risk finding (description and
data strings omitted). -/
structure RiskEvent where
  vehicleId : Nat
  driverId : Option Nat
  eventType : String
  severity : String
  riskScore : ℚ
  timestamp : Int
  latitude : Option ℚ
  longitude : Option ℚ
deriving Repr, DecidableEq

/-- Embeds the fields of models.Vehicle that the risk engine reads. -/
structure Vehicle where
  id : Nat
  fleetId : Nat
deriving Repr, DecidableEq

/-- Embeds models.Alert (title kept, message string omitted). -/
structure Alert where
  fleetId : Nat
  vehicleId : Option Nat
  driverId : Option Nat
  type : String
  priority : String
  title : String
  status : String
deriving Repr, DecidableEq

/-- Embeds the fields of models.Driver that the risk engine reads. -/
structure Driver where
  id : Nat
  status : String
  riskScore : ℚ
deriving Repr, DecidableEq

/-- Embeds models.DriverScore: aggregated driver metrics. -/
structure DriverScore where
  driverId : Nat
  overallScore : ℚ
  safetyScore : ℚ
  efficiencyScore : ℚ
  totalMiles : ℚ
  totalTrips : Int
  riskEvents : Int
  lastUpdated : Int
deriving Repr, DecidableEq

/-! ## Risk Classifier (RiskAnalyzer.AnalyzeEvent, risk-engine/main.go lines 186-247) -/

/-- Embeds the RiskAnalyzer threshold configuration. -/
structure RiskAnalyzer where
  speedThreshold : ℚ
  accelerationThreshold : ℚ
  brakingThreshold : ℚ
deriving Repr, DecidableEq

/-- The default thresholds from main: SPEED_THRESHOLD 80.0 mph,
ACCEL_THRESHOLD 4.0, BRAKING_THRESHOLD -6.0. -/
def defaultAnalyzer : RiskAnalyzer :=
  { speedThreshold := 80, accelerationThreshold := 4, brakingThreshold := -6 }

/-- Embeds RiskAnalyzer.AnalyzeEvent: the pure classifier mapping one
telemetry sample to a list of risk findings.  The speeding branch
mirrors the Go overwrite sequence: severity starts at medium/50, is
overwritten to high/75 when speed exceeds 1.3 times the limit, then to
critical/90 when it exceeds 1.5 times the limit. -/
def RiskAnalyzer.analyzeEvent (ra : RiskAnalyzer) (event : TelemetryEvent) :
    List RiskEvent :=
  let risks : List RiskEvent := []
  let risks :=
    match event.speed with
    | some s =>
      if s > ra.speedThreshold then
        let p : String × ℚ := ("medium", 50)
        let p := if s > ra.speedThreshold * 1.3 then ("high", (75 : ℚ)) else p
        let p := if s > ra.speedThreshold * 1.5 then ("critical", (90 : ℚ)) else p
        risks ++ [{ vehicleId := event.vehicleId, driverId := none,
                    eventType := "speeding", severity := p.1, riskScore := p.2,
                    timestamp := event.timestamp, latitude := event.latitude,
                    longitude := event.longitude }]
      else risks
    | none => risks
  let risks :=
    match event.acceleration with
    | some a =>
      if a > ra.accelerationThreshold then
        risks ++ [{ vehicleId := event.vehicleId, driverId := none,
                    eventType := "rapid_acceleration", severity := "medium",
                    riskScore := 60, timestamp := event.timestamp,
                    latitude := event.latitude, longitude := event.longitude }]
      else risks
    | none => risks
  let risks :=
    match event.acceleration with
    | some a =>
      if a < ra.brakingThreshold then
        risks ++ [{ vehicleId := event.vehicleId, driverId := none,
                    eventType := "harsh_braking", severity := "medium",
                    riskScore := 65, timestamp := event.timestamp,
                    latitude := event.latitude, longitude := event.longitude }]
      else risks
    | none => risks
  risks

/-! ## Score Aggregator (calculateDriverScore, risk-engine/main.go lines 250-279) -/

/-- Embeds calculateDriverScore: given the count of risk events for the
driver in the trailing 30-day window (the result of the store count
query) and the current time, produce the DriverScore record.  The Go
code leaves DriverID at its zero value here; it is set only on the
create path of the upsert. -/
def calculateDriverScore (riskCount : Int) (now : Int) : DriverScore :=
  let safetyScore : ℚ := max 0 (100 - (riskCount : ℚ) * 5)
  let efficiencyScore : ℚ := 85
  let overallScore : ℚ := (safetyScore + efficiencyScore) / 2
  { driverId := 0, overallScore := overallScore, safetyScore := safetyScore,
    efficiencyScore := efficiencyScore, totalMiles := 1000, totalTrips := 50,
    riskEvents := riskCount, lastUpdated := now }

/-! ## Alert Emitter (createAlert, mapSeverityToPriority, formatEventType,
risk-engine/main.go lines 287-332) -/

/-- Embeds mapSeverityToPriority. -/
def mapSeverityToPriority (severity : String) : String :=
  if severity == "critical" then "critical"
  else if severity == "high" then "high"
  else if severity == "medium" then "medium"
  else "low"

/-- Embeds formatEventType. -/
def formatEventType (eventType : String) : String :=
  if eventType == "speeding" then "Speeding"
  else if eventType == "harsh_braking" then "Harsh Braking"
  else if eventType == "rapid_acceleration" then "Rapid Acceleration"
  else "Risk Event"

/-- Embeds createAlert: resolve the owning vehicle of the finding; on
lookup failure return none (the Go function returns the lookup error and
persists nothing); otherwise build the Alert record with status unread
and priority mapped from severity. -/
def createAlert (vehicles : List Vehicle) (risk : RiskEvent) : Option Alert :=
  match vehicles.find? (fun v => v.id == risk.vehicleId) with
  | none => none
  | some vehicle =>
      some { fleetId := vehicle.fleetId, vehicleId := some risk.vehicleId,
             driverId := risk.driverId, type := "risk",
             priority := mapSeverityToPriority risk.severity,
             title := formatEventType risk.eventType ++ " Alert",
             status := "unread" }

/-! ## Batch Scanner (processUnprocessedTelemetry, risk-engine/main.go
lines 97-135) -/

/-- A payload published on the Event Bus. -/
inductive BusPayload where
  | risk (r : RiskEvent)
  | alert (a : Alert)
deriving Repr, DecidableEq

/-- The state the risk engine reads and writes: the store tables plus the
list of (channel, payload) pairs ever published to the Event Bus. -/
structure EngineDB where
  telemetry : List TelemetryEvent
  riskEvents : List RiskEvent
  alerts : List Alert
  vehicles : List Vehicle
  published : List (String × BusPayload)
deriving Repr, DecidableEq

/-- Embeds the store update setting processed_at on the row with the
given primary key. -/
def markProcessed (telemetry : List TelemetryEvent) (id : Nat) (t : Int) :
    List TelemetryEvent :=
  telemetry.map (fun e => if e.id == id then { e with processedAt := some t } else e)

/-- Embeds the body of the inner loop of processUnprocessedTelemetry for
one candidate finding: createRiskEvent persists it (success decided by
the persistOk oracle, modelling store write failures; on failure the Go
code logs and continues, skipping alert creation), and for high or
critical severity createAlert is invoked, its own failure also only
logged. -/
def persistAndAlert (persistOk : RiskEvent → Bool) (db : EngineDB)
    (risk : RiskEvent) : EngineDB :=
  if persistOk risk then
    let db1 := { db with riskEvents := db.riskEvents ++ [risk] }
    if risk.severity == "high" || risk.severity == "critical" then
      match createAlert db1.vehicles risk with
      | some alert => { db1 with alerts := db1.alerts ++ [alert] }
      | none => db1
    else db1
  else db

/-- Embeds one iteration of the outer loop of processUnprocessedTelemetry:
classify the sample, persist findings and alerts, then unconditionally
mark the sample processed. -/
def processOneEvent (ra : RiskAnalyzer) (persistOk : RiskEvent → Bool)
    (now : Int) (db : EngineDB) (event : TelemetryEvent) : EngineDB :=
  let db1 := (ra.analyzeEvent event).foldl (persistAndAlert persistOk) db
  { db1 with telemetry := markProcessed db1.telemetry event.id now }

/-- Stable insertion into a timestamp-sorted list (oldest first). -/
def insertByTimestamp (e : TelemetryEvent) :
    List TelemetryEvent → List TelemetryEvent
  | [] => [e]
  | x :: xs =>
      if e.timestamp < x.timestamp then e :: x :: xs
      else x :: insertByTimestamp e xs

/-- Models the ORDER BY timestamp ASC of the fetch query. -/
def sortByTimestamp : List TelemetryEvent → List TelemetryEvent
  | [] => []
  | x :: xs => insertByTimestamp x (sortByTimestamp xs)

/-- Embeds the fetch query of processUnprocessedTelemetry: rows with
processed_at NULL and created_at inside the one-hour look-back window,
ordered by timestamp ascending, limited to 1000. -/
def fetchUnprocessed (db : EngineDB) (now : Int) : List TelemetryEvent :=
  (sortByTimestamp (db.telemetry.filter
    (fun e => e.processedAt == none && decide (now - 3600 < e.createdAt)))).take 1000

/-- Embeds one full run of processUnprocessedTelemetry.  Note that the
run publishes nothing to the Event Bus: the Go run path contains no
publish call, so the published list is never extended. -/
def processUnprocessedTelemetry (ra : RiskAnalyzer) (persistOk : RiskEvent → Bool)
    (now : Int) (db : EngineDB) : EngineDB :=
  (fetchUnprocessed db now).foldl (processOneEvent ra persistOk now) db

/-! ## Score Aggregator run (updateDriverScores, risk-engine/main.go
lines 151-183) -/

/-- Embeds the semantics of a gorm Updates call with a struct argument:
zero-valued fields of the new record are skipped and keep the stored
value. -/
def gormUpdatesScore (old new : DriverScore) : DriverScore :=
  { driverId := if new.driverId ≠ 0 then new.driverId else old.driverId,
    overallScore := if new.overallScore ≠ 0 then new.overallScore else old.overallScore,
    safetyScore := if new.safetyScore ≠ 0 then new.safetyScore else old.safetyScore,
    efficiencyScore := if new.efficiencyScore ≠ 0 then new.efficiencyScore else old.efficiencyScore,
    totalMiles := if new.totalMiles ≠ 0 then new.totalMiles else old.totalMiles,
    totalTrips := if new.totalTrips ≠ 0 then new.totalTrips else old.totalTrips,
    riskEvents := if new.riskEvents ≠ 0 then new.riskEvents else old.riskEvents,
    lastUpdated := if new.lastUpdated ≠ 0 then new.lastUpdated else old.lastUpdated }

/-- The state the Score Aggregator reads and writes: the driver table and
the driver_id-keyed DriverScore table (driver_id carries a unique
index). -/
structure ScoreDB where
  drivers : List Driver
  scores : Nat → Option DriverScore

/-- Embeds the body of the loop of updateDriverScores for one driver:
compute the score from the windowed risk-event count (the counts oracle
models the store count query), write the overall score onto the driver
row, and upsert the DriverScore row: create it (setting DriverID) when
absent, else apply a gorm Updates with the computed struct. -/
def scoreOneDriver (counts : Nat → Int) (now : Int) (db : ScoreDB)
    (d : Driver) : ScoreDB :=
  let score := calculateDriverScore (counts d.id) now
  { drivers := db.drivers.map (fun d2 =>
      if d2.id == d.id then { d2 with riskScore := score.overallScore } else d2),
    scores := fun j =>
      if j == d.id then
        match db.scores d.id with
        | none => some { score with driverId := d.id }
        | some old => some (gormUpdatesScore old score)
      else db.scores j }

/-- Embeds one full run of updateDriverScores: iterate over the drivers
whose status is active. -/
def updateDriverScores (counts : Nat → Int) (now : Int) (db : ScoreDB) : ScoreDB :=
  (db.drivers.filter (fun d => d.status == "active")).foldl
    (scoreOneDriver counts now) db

/-! ## Connection Hub (Hub.run, services/websocket/main.go lines 147-188) -/

/-- Embeds the serialized Message envelope broadcast to clients (the data
payload is opaque to the hub). -/
structure Message where
  type : String
  fleetId : String
  vehicleId : String
deriving Repr, DecidableEq

/-- Embeds a registered Client: its fleet scope, user type, and the
contents of its buffered send channel. -/
structure Client where
  id : Nat
  fleetId : String
  userType : String
  send : List Message
deriving Repr, DecidableEq

/-- The capacity of the send channel created in handleWebSocket. -/
def sendQueueCapacity : Nat := 256

/-- The outcome of one broadcast step: the surviving registry and the
clients that were unregistered and whose send channels were closed. -/
structure BroadcastResult where
  clients : List Client
  closed : List Client
deriving Repr, DecidableEq

/-- Embeds the body of the broadcast loop of Hub.run for one registered
client: a nonblocking send enqueues the message when the buffered
channel has room; otherwise the client is deleted from the registry and
its send channel closed. -/
def broadcastSendOne (message : Message) (acc : BroadcastResult) (c : Client) :
    BroadcastResult :=
  if c.send.length < sendQueueCapacity then
    { acc with clients := acc.clients ++ [{ c with send := c.send ++ [message] }] }
  else
    { acc with closed := acc.closed ++ [c] }

/-- Embeds the broadcast case of Hub.run: iterate the registry and
attempt a nonblocking send to each client.  The message bytes are
treated as opaque: no field of the message is inspected. -/
def hubBroadcast (clients : List Client) (message : Message) : BroadcastResult :=
  clients.foldl (broadcastSendOne message) { clients := [], closed := [] }

/-! ## Derived characterizations of the classifier -/

/-- The severity and score the speeding branch assigns, written as the
nested conditional the Go overwrite sequence denotes. -/
def speedSeverityScore (s limit : ℚ) : String × ℚ :=
  if s > limit * 1.5 then ("critical", 90)
  else if s > limit * 1.3 then ("high", 75)
  else ("medium", 50)

/-- The speeding finding built from a sample and a severity-score pair. -/
def speedingFinding (e : TelemetryEvent) (p : String × ℚ) : RiskEvent :=
  { vehicleId := e.vehicleId, driverId := none, eventType := "speeding",
    severity := p.1, riskScore := p.2, timestamp := e.timestamp,
    latitude := e.latitude, longitude := e.longitude }

/-- The findings of kind speeding among a finding list. -/
def speedingFindings (risks : List RiskEvent) : List RiskEvent :=
  risks.filter (fun r => r.eventType == "speeding")

/-! ## Concrete samples used in scenarios -/

/-- A telemetry sample at 95 mph with no acceleration reading. -/
def ev95 : TelemetryEvent :=
  { id := 1, vehicleId := 1, eventType := "speed", timestamp := 10,
    latitude := none, longitude := none, speed := some 95,
    acceleration := none, processedAt := none, createdAt := 0 }

/-- A telemetry sample at 125 mph with no acceleration reading. -/
def ev125 : TelemetryEvent := { ev95 with id := 2, speed := some 125 }

/-- A telemetry sample with no speed reading and acceleration 5. -/
def evAccel5 : TelemetryEvent :=
  { ev95 with id := 3, speed := none, acceleration := some 5 }

/-- A telemetry sample at 70 mph with acceleration -2. -/
def ev70 : TelemetryEvent :=
  { ev95 with id := 4, speed := some 70, acceleration := some (-2) }

/-! ## Claims about the Risk Classifier -/

lemma analyzeEvent_speeding_eq (ra : RiskAnalyzer) (e : TelemetryEvent) (s : ℚ)
    (hs : e.speed = some s) :
    speedingFindings (ra.analyzeEvent e) =
      if s > ra.speedThreshold then
        [speedingFinding e (speedSeverityScore s ra.speedThreshold)]
      else [] := by
  unfold RiskAnalyzer.analyzeEvent speedingFindings speedingFinding speedSeverityScore
  rw [hs]
  cases hac : e.acceleration with
  | none =>
    by_cases hsp : s > ra.speedThreshold <;> simp [hsp]
  | some a =>
    by_cases hsp : s > ra.speedThreshold <;>
      by_cases h1 : a > ra.accelerationThreshold <;>
      by_cases h2 : a < ra.brakingThreshold <;>
      simp [hsp, h1, h2, List.filter_append]

/-- C3 counterexample: with default thresholds, a sample with no speed
reading and acceleration 5 satisfies the claimed bound (the absolute
value 5 is at most max(accelLimit, abs brakeLimit) = 6) yet the
classifier returns a nonempty finding list (one rapid-acceleration
finding), refuting the claim as stated. -/
theorem classifier_fires_inside_claimed_bound :
    evAccel5.speed = none ∧ evAccel5.acceleration = some 5 ∧
    |(5:ℚ)| ≤ max defaultAnalyzer.accelerationThreshold |defaultAnalyzer.brakingThreshold| ∧
    defaultAnalyzer.analyzeEvent evAccel5 ≠ [] := by
  exact ⟨rfl, rfl, by decide, by decide⟩

/-- C3 (amended): for every sample whose speed, when present, is at most
speedLimit and whose acceleration, when present, lies between brakeLimit
and accelLimit (so its absolute value is at most min(accelLimit,
abs brakeLimit) when those thresholds have their usual signs), the
classifier returns an empty finding list. -/
theorem analyzeEvent_empty_within_thresholds (ra : RiskAnalyzer) (e : TelemetryEvent)
    (hs : ∀ s, e.speed = some s → s ≤ ra.speedThreshold)
    (ha : ∀ a, e.acceleration = some a →
      ra.brakingThreshold ≤ a ∧ a ≤ ra.accelerationThreshold) :
    ra.analyzeEvent e = [] := by
  unfold RiskAnalyzer.analyzeEvent
  cases hsp : e.speed with
  | none =>
    cases hac : e.acceleration with
    | none => rfl
    | some a =>
      obtain ⟨h1, h2⟩ := ha a hac
      simp [not_lt.mpr h1, not_lt.mpr h2]
  | some s =>
    cases hac : e.acceleration with
    | none => simp [not_lt.mpr (hs s hsp)]
    | some a =>
      obtain ⟨h1, h2⟩ := ha a hac
      simp [not_lt.mpr (hs s hsp), not_lt.mpr h1, not_lt.mpr h2]

/-- Witness for the amended C3 at a concrete in-threshold sample. -/
theorem analyzeEvent_empty_within_thresholds_witness :
    (∀ s, ev70.speed = some s → s ≤ defaultAnalyzer.speedThreshold) ∧
    (∀ a, ev70.acceleration = some a →
      defaultAnalyzer.brakingThreshold ≤ a ∧ a ≤ defaultAnalyzer.accelerationThreshold) ∧
    defaultAnalyzer.analyzeEvent ev70 = [] := by
  have h1 : ∀ s, ev70.speed = some s → s ≤ defaultAnalyzer.speedThreshold := by
    intro s hs
    cases Option.some.inj hs
    decide
  have h2 : ∀ a, ev70.acceleration = some a →
      defaultAnalyzer.brakingThreshold ≤ a ∧ a ≤ defaultAnalyzer.accelerationThreshold := by
    intro a ha
    cases Option.some.inj ha
    exact ⟨by decide, by decide⟩
  exact ⟨h1, h2, analyzeEvent_empty_within_thresholds defaultAnalyzer ev70 h1 h2⟩

/-- C4: for a sample carrying speed s, the classifier emits a speeding
finding exactly when s exceeds the speed threshold, with severity
critical and score 90 above 1.5 times the limit, else high and 75 above
1.3 times the limit, else medium and 50; the sample at 95 mph yields one
medium finding with score 50 and the sample at 125 mph one critical
finding with score 90 (default limit 80). -/
theorem speeding_finding_characterization :
    (∀ (ra : RiskAnalyzer) (e : TelemetryEvent) (s : ℚ), e.speed = some s →
      speedingFindings (ra.analyzeEvent e) =
        if s > ra.speedThreshold then
          [speedingFinding e (speedSeverityScore s ra.speedThreshold)]
        else []) ∧
    (∀ s limit : ℚ,
      speedSeverityScore s limit =
        if s > limit * 1.5 then ("critical", 90)
        else if s > limit * 1.3 then ("high", 75)
        else ("medium", 50)) ∧
    defaultAnalyzer.analyzeEvent ev95 = [speedingFinding ev95 ("medium", 50)] ∧
    defaultAnalyzer.analyzeEvent ev125 = [speedingFinding ev125 ("critical", 90)] := by
  refine ⟨analyzeEvent_speeding_eq, fun s limit => rfl, ?_, ?_⟩
  · norm_num [RiskAnalyzer.analyzeEvent, defaultAnalyzer, ev95, speedingFinding]
  · norm_num [RiskAnalyzer.analyzeEvent, defaultAnalyzer, ev125, ev95, speedingFinding]

/-- Witness for C4 at the 95 mph sample. -/
theorem speeding_finding_characterization_witness :
    ev95.speed = some 95 ∧
    speedingFindings (defaultAnalyzer.analyzeEvent ev95) =
      (if (95:ℚ) > defaultAnalyzer.speedThreshold then
        [speedingFinding ev95 (speedSeverityScore 95 defaultAnalyzer.speedThreshold)]
      else []) :=
  ⟨rfl, speeding_finding_characterization.1 defaultAnalyzer ev95 95 rfl⟩

/-! ## Claims about the Score Aggregator computation -/

/-- C6: the aggregator computes safetyScore as max(0, 100 minus 5 times
the windowed risk count) and overallScore as the mean of safetyScore and
efficiencyScore; a driver with 6 findings gets safetyScore 70. -/
theorem calculateDriverScore_spec :
    (∀ riskCount now : Int,
      (calculateDriverScore riskCount now).safetyScore =
        max 0 (100 - 5 * (riskCount : ℚ)) ∧
      (calculateDriverScore riskCount now).overallScore =
        ((calculateDriverScore riskCount now).safetyScore +
          (calculateDriverScore riskCount now).efficiencyScore) / 2) ∧
    (∀ now : Int, (calculateDriverScore 6 now).safetyScore = 70) := by
  constructor
  · intro n t
    constructor
    · show max 0 (100 - (n:ℚ) * 5) = max 0 (100 - 5 * (n:ℚ))
      ring_nf
    · rfl
  · intro t
    show max 0 (100 - ((6:Int):ℚ) * 5) = 70
    norm_num

/-! ## Claims about the Connection Hub -/

lemma foldl_broadcastSendOne (m : Message) (cs : List Client) (acc : BroadcastResult) :
    cs.foldl (broadcastSendOne m) acc =
      { clients := acc.clients ++
          (cs.filter (fun c => decide (c.send.length < sendQueueCapacity))).map
            (fun c => { c with send := c.send ++ [m] }),
        closed := acc.closed ++
          cs.filter (fun c => !decide (c.send.length < sendQueueCapacity)) } := by
  induction cs generalizing acc with
  | nil => simp
  | cons c cs ih =>
    rw [List.foldl_cons, ih]
    unfold broadcastSendOne
    by_cases h : c.send.length < sendQueueCapacity <;>
      simp [h, List.filter_cons]

lemma hubBroadcast_eq (clients : List Client) (m : Message) :
    hubBroadcast clients m =
      { clients := (clients.filter (fun c => decide (c.send.length < sendQueueCapacity))).map
          (fun c => { c with send := c.send ++ [m] }),
        closed := clients.filter (fun c => !decide (c.send.length < sendQueueCapacity)) } := by
  unfold hubBroadcast
  rw [foldl_broadcastSendOne]
  simp

/-- C5: in one broadcast step every registered client whose queue is at
capacity is unregistered and closed, every other client has the message
enqueued, and a surviving client with remaining capacity receives the
next broadcast message as well. -/
theorem hub_backpressure_spec (clients : List Client) (m m2 : Message) :
    ((hubBroadcast clients m).closed =
      clients.filter (fun c => !decide (c.send.length < sendQueueCapacity))) ∧
    ((hubBroadcast clients m).clients =
      (clients.filter (fun c => decide (c.send.length < sendQueueCapacity))).map
        (fun c => { c with send := c.send ++ [m] })) ∧
    (∀ c ∈ (hubBroadcast clients m).clients, c.send.length < sendQueueCapacity →
      { c with send := c.send ++ [m2] } ∈
        (hubBroadcast (hubBroadcast clients m).clients m2).clients) := by
  refine ⟨(hubBroadcast_eq clients m).symm ▸ rfl, (hubBroadcast_eq clients m).symm ▸ rfl, ?_⟩
  intro c hc hlen
  rw [hubBroadcast_eq]
  exact List.mem_map_of_mem _ (List.mem_filter.mpr ⟨hc, by simpa using hlen⟩)

/-- A message envelope carrying fleet identifier 1. -/
def msgFleet1 : Message := { type := "alert", fleetId := "1", vehicleId := "" }

/-- A second message envelope, used as the subsequent broadcast. -/
def msgFleet9 : Message := { type := "risk_event", fleetId := "9", vehicleId := "3" }

/-- A client whose recorded scope is fleet 2 with an empty queue. -/
def clientFleet2 : Client :=
  { id := 1, fleetId := "2", userType := "fleet_manager", send := [] }

/-- A client whose outbound queue is full. -/
def clientFull : Client :=
  { id := 2, fleetId := "", userType := "driver",
    send := List.replicate sendQueueCapacity msgFleet9 }

set_option maxRecDepth 4096 in
/-- Witness for C5 on a registry of one empty-queue client and one
full-queue client: the full client is closed, the other is enqueued to
and receives the subsequent message. -/
theorem hub_backpressure_spec_witness :
    ({ clientFleet2 with send := [msgFleet1] } : Client) ∈
      (hubBroadcast [clientFleet2, clientFull] msgFleet1).clients ∧
    ({ clientFleet2 with send := [msgFleet1] } : Client).send.length < sendQueueCapacity ∧
    (hubBroadcast [clientFleet2, clientFull] msgFleet1).closed = [clientFull] ∧
    { clientFleet2 with send := [msgFleet1, msgFleet9] } ∈
      (hubBroadcast (hubBroadcast [clientFleet2, clientFull] msgFleet1).clients
        msgFleet9).clients := by
  refine ⟨by decide, by decide, by decide, ?_⟩
  exact (hub_backpressure_spec [clientFleet2, clientFull] msgFleet1 msgFleet9).2.2
    { clientFleet2 with send := [msgFleet1] } (by decide) (by decide)

/-- C2 (code behavior at a failing input): the hub enqueues a broadcast
message carrying fleet identifier 1 to a client whose recorded scope is
fleet 2 and not empty, so delivery is not restricted to matching or
unscoped connections as the claim requires. -/
theorem hub_delivers_to_mismatched_scope :
    clientFleet2.fleetId ≠ "" ∧
    clientFleet2.fleetId ≠ msgFleet1.fleetId ∧
    (hubBroadcast [clientFleet2] msgFleet1).clients =
      [{ clientFleet2 with send := [msgFleet1] }] := by
  exact ⟨by decide, by decide, by decide⟩

/-! ## Claims about the Batch Scanner and Alert Emitter -/

/-- The alert the inner loop emits for a persisted finding: one is built
only for severity high or critical, and only when the vehicle lookup
succeeds. -/
def emittedAlert (vehicles : List Vehicle) (r : RiskEvent) : Option Alert :=
  if r.severity == "high" || r.severity == "critical" then createAlert vehicles r
  else none

lemma foldl_persistAndAlert_eq (ok : RiskEvent → Bool) (risks : List RiskEvent)
    (db : EngineDB) :
    risks.foldl (persistAndAlert ok) db =
      { db with riskEvents := db.riskEvents ++ risks.filter ok,
                alerts := db.alerts ++
                  (risks.filter ok).filterMap (emittedAlert db.vehicles) } := by
  induction risks generalizing db with
  | nil => simp
  | cons r rs ih =>
    rw [List.foldl_cons, ih]
    by_cases hok : ok r
    · by_cases hsev : (r.severity == "high" || r.severity == "critical") = true
      · cases hca : createAlert db.vehicles r with
        | none =>
          simp [persistAndAlert, hok, hsev, hca, List.filter_cons, emittedAlert]
        | some alert =>
          simp [persistAndAlert, hok, hsev, hca, List.filter_cons, emittedAlert]
      · simp [persistAndAlert, hok, hsev, List.filter_cons, emittedAlert]
    · simp [persistAndAlert, hok, List.filter_cons]

lemma processOneEvent_eq (ra : RiskAnalyzer) (ok : RiskEvent → Bool) (now : Int)
    (db : EngineDB) (e : TelemetryEvent) :
    processOneEvent ra ok now db e =
      { db with
          telemetry := markProcessed db.telemetry e.id now,
          riskEvents := db.riskEvents ++ (ra.analyzeEvent e).filter ok,
          alerts := db.alerts ++
            ((ra.analyzeEvent e).filter ok).filterMap (emittedAlert db.vehicles) } := by
  unfold processOneEvent
  rw [foldl_persistAndAlert_eq]

/-- C8: for a persisted finding whose vehicle lookup succeeds, an alert
is created exactly when its severity is high or critical, with delivery
status unread and priority mapped from the severity (critical to
critical, high to high); low or medium severity never produces one. -/
theorem alert_iff_high_or_critical (persistOk : RiskEvent → Bool) (db : EngineDB)
    (risk : RiskEvent) (v : Vehicle)
    (hp : persistOk risk = true)
    (hv : db.vehicles.find? (fun w => w.id == risk.vehicleId) = some v) :
    (persistAndAlert persistOk db risk).riskEvents = db.riskEvents ++ [risk] ∧
    (persistAndAlert persistOk db risk).alerts =
      (if risk.severity == "high" || risk.severity == "critical" then
        db.alerts ++
          [{ fleetId := v.fleetId, vehicleId := some risk.vehicleId,
             driverId := risk.driverId, type := "risk",
             priority := mapSeverityToPriority risk.severity,
             title := formatEventType risk.eventType ++ " Alert",
             status := "unread" }]
      else db.alerts) ∧
    mapSeverityToPriority "critical" = "critical" ∧
    mapSeverityToPriority "high" = "high" := by
  unfold persistAndAlert createAlert
  by_cases hsev : (risk.severity == "high" || risk.severity == "critical") = true <;>
    simp [hp, hsev, hv, mapSeverityToPriority]

/-- The critical speeding finding produced from the 125 mph sample. -/
def risk125 : RiskEvent := speedingFinding ev125 ("critical", 90)

/-- A vehicle table containing vehicle 1 in fleet 7. -/
def vehicles17 : List Vehicle := [{ id := 1, fleetId := 7 }]

/-- The store state holding the single unprocessed 125 mph sample. -/
def scanDb125 : EngineDB :=
  { telemetry := [ev125], riskEvents := [], alerts := [],
    vehicles := vehicles17, published := [] }

/-- Witness for C8 at the persisted critical finding of the 125 mph
sample, whose vehicle lookup succeeds. -/
theorem alert_iff_high_or_critical_witness :
    ((fun _ => true) : RiskEvent → Bool) risk125 = true ∧
    scanDb125.vehicles.find? (fun w => w.id == risk125.vehicleId) =
      some { id := 1, fleetId := 7 } ∧
    (persistAndAlert (fun _ => true) scanDb125 risk125).riskEvents =
      scanDb125.riskEvents ++ [risk125] :=
  ⟨rfl, rfl,
    (alert_iff_high_or_critical (fun _ => true) scanDb125 risk125
      { id := 1, fleetId := 7 } rfl rfl).1⟩

lemma analyzeEvent_vehicleId (ra : RiskAnalyzer) (e : TelemetryEvent) :
    ∀ r ∈ ra.analyzeEvent e, r.vehicleId = e.vehicleId := by
  intro r hr
  unfold RiskAnalyzer.analyzeEvent at hr
  cases hsp : e.speed <;> rw [hsp] at hr <;>
    cases hac : e.acceleration <;> rw [hac] at hr
  all_goals simp at hr
  all_goals first
  | (split_ifs at hr <;> simp_all)
  | simp_all
  all_goals
    (first
      | (rcases hr with rfl | rfl | rfl)
      | (rcases hr with rfl | rfl)
      | (rcases hr with rfl)) <;> rfl

/-- C9: when the vehicle lookup fails for the findings of a sample, the
sample's processing persists its findings but no alert, still marks the
sample processed, and the run continues with the remaining samples. -/
theorem lookup_failure_skips_alert (ra : RiskAnalyzer) (persistOk : RiskEvent → Bool)
    (now : Int) (db : EngineDB) (e : TelemetryEvent)
    (hv : ∀ v ∈ db.vehicles, v.id ≠ e.vehicleId) :
    (processOneEvent ra persistOk now db e).alerts = db.alerts ∧
    (processOneEvent ra persistOk now db e).riskEvents =
      db.riskEvents ++ (ra.analyzeEvent e).filter persistOk ∧
    (processOneEvent ra persistOk now db e).telemetry =
      markProcessed db.telemetry e.id now ∧
    (∀ es : List TelemetryEvent,
      (e :: es).foldl (processOneEvent ra persistOk now) db =
        es.foldl (processOneEvent ra persistOk now)
          (processOneEvent ra persistOk now db e)) := by
  have hnone : ∀ r ∈ (ra.analyzeEvent e).filter persistOk,
      emittedAlert db.vehicles r = none := by
    intro r hr
    have hrid : r.vehicleId = e.vehicleId :=
      analyzeEvent_vehicleId ra e r (List.mem_of_mem_filter hr)
    have hfind : db.vehicles.find? (fun w => w.id == r.vehicleId) = none := by
      rw [List.find?_eq_none]
      intro v hvmem
      simp [hrid]
      exact hv v hvmem
    unfold emittedAlert createAlert
    rw [hfind]
    split <;> rfl
  refine ⟨?_, ?_, ?_, fun es => List.foldl_cons ..⟩
  · rw [processOneEvent_eq]
    simp [List.filterMap_eq_nil_iff.mpr hnone]
  · rw [processOneEvent_eq]
  · rw [processOneEvent_eq]

/-- A store state holding the 125 mph sample but no row for vehicle 1,
so the alert-time vehicle lookup fails. -/
def scanDb125noVehicle : EngineDB :=
  { telemetry := [ev125], riskEvents := [], alerts := [],
    vehicles := [{ id := 2, fleetId := 7 }], published := [] }

/-- Witness for C9: processing the 125 mph sample against a vehicle
table that does not contain vehicle 1 creates no alert. -/
theorem lookup_failure_skips_alert_witness :
    (∀ v ∈ (scanDb125noVehicle).vehicles, v.id ≠ ev125.vehicleId) ∧
    (processOneEvent defaultAnalyzer (fun _ => true) 0 scanDb125noVehicle ev125).alerts =
      scanDb125noVehicle.alerts :=
  ⟨by decide,
    (lookup_failure_skips_alert defaultAnalyzer (fun _ => true) 0
      scanDb125noVehicle ev125 (by decide)).1⟩

lemma mem_insertByTimestamp {x e : TelemetryEvent} {l : List TelemetryEvent} :
    x ∈ insertByTimestamp e l ↔ x = e ∨ x ∈ l := by
  induction l with
  | nil => simp [insertByTimestamp]
  | cons y ys ih =>
    unfold insertByTimestamp
    split_ifs <;> simp [ih] <;> tauto

lemma mem_sortByTimestamp {x : TelemetryEvent} {l : List TelemetryEvent} :
    x ∈ sortByTimestamp l ↔ x ∈ l := by
  induction l with
  | nil => simp [sortByTimestamp]
  | cons y ys ih => simp [sortByTimestamp, mem_insertByTimestamp, ih]

lemma mem_fetchUnprocessed {db : EngineDB} {now : Int} {e : TelemetryEvent}
    (h : e ∈ fetchUnprocessed db now) :
    e ∈ db.telemetry ∧ e.processedAt = none := by
  unfold fetchUnprocessed at h
  have h1 := mem_sortByTimestamp.mp (List.take_subset _ _ h)
  obtain ⟨hmem, hcond⟩ := List.mem_filter.mp h1
  refine ⟨hmem, ?_⟩
  cases hpa : e.processedAt with
  | none => rfl
  | some t => rw [hpa] at hcond; simp at hcond

lemma foldl_processOneEvent_marks (ra : RiskAnalyzer) (ok : RiskEvent → Bool)
    (now : Int) :
    ∀ (events : List TelemetryEvent) (db : EngineDB) (ids : List Nat),
      (∀ e1 ∈ db.telemetry, e1.id ∈ ids → e1.processedAt = some now) →
      ∀ e1 ∈ (events.foldl (processOneEvent ra ok now) db).telemetry,
        e1.id ∈ ids ++ events.map (fun e => e.id) → e1.processedAt = some now := by
  intro events
  induction events with
  | nil =>
    intro db ids h e1 h1 h2
    exact h e1 h1 (by simpa using h2)
  | cons e es ih =>
    intro db ids h e1 h1 h2
    rw [List.foldl_cons] at h1
    refine ih (processOneEvent ra ok now db e) (ids ++ [e.id]) ?_ e1 h1 ?_
    · intro e2 he2 hid
      rw [processOneEvent_eq] at he2
      obtain ⟨e0, he0, he0eq⟩ := List.mem_map.mp he2
      by_cases hbeq : (e0.id == e.id) = true
      · rw [if_pos hbeq] at he0eq
        rw [← he0eq]
      · rw [if_neg hbeq] at he0eq
        subst he0eq
        rcases List.mem_append.mp hid with hin | hin
        · exact h e0 he0 hin
        · simp at hin hbeq
          exact absurd hin hbeq
    · simpa [List.append_assoc] using h2

/-- C10: every fetched sample is marked processed in the run regardless
of persistence outcomes (the persistOk oracle is arbitrary), so no
sample fetched in this run is returned by a later fetch: a finding
dropped by a persistence failure is never re-derived. -/
theorem fetched_samples_marked_unconditionally (ra : RiskAnalyzer)
    (persistOk : RiskEvent → Bool) (db : EngineDB) (now nxt : Int) :
    (∀ e ∈ fetchUnprocessed db now,
      ∀ e1 ∈ (processUnprocessedTelemetry ra persistOk now db).telemetry,
        e1.id = e.id → e1.processedAt = some now) ∧
    (∀ e ∈ fetchUnprocessed db now,
      ∀ e2 ∈ fetchUnprocessed (processUnprocessedTelemetry ra persistOk now db) nxt,
        e2.id ≠ e.id) := by
  have hmark : ∀ e ∈ fetchUnprocessed db now,
      ∀ e1 ∈ (processUnprocessedTelemetry ra persistOk now db).telemetry,
        e1.id = e.id → e1.processedAt = some now := by
    intro e he e1 he1 hid
    refine foldl_processOneEvent_marks ra persistOk now (fetchUnprocessed db now) db []
      (by simp) e1 he1 ?_
    simp only [List.nil_append]
    rw [hid]
    exact List.mem_map_of_mem _ he
  refine ⟨hmark, ?_⟩
  intro e he e2 he2 hid
  obtain ⟨hmem, hpa⟩ := mem_fetchUnprocessed he2
  have := hmark e he e2 hmem hid
  rw [hpa] at this
  exact Option.noConfusion this

/-- The store state used in the C10 witness: one unprocessed sample and
no vehicle rows. -/
def scanDb95 : EngineDB :=
  { telemetry := [ev95], riskEvents := [], alerts := [],
    vehicles := [], published := [] }

/-- Witness for C10 at a run whose every persistence attempt fails: the
fetched 95 mph sample is still marked processed. -/
theorem fetched_samples_marked_unconditionally_witness :
    ev95 ∈ fetchUnprocessed scanDb95 0 ∧
    ({ ev95 with processedAt := some 0 } : TelemetryEvent) ∈
      (processUnprocessedTelemetry defaultAnalyzer (fun _ => false) 0 scanDb95).telemetry ∧
    ({ ev95 with processedAt := some 0 } : TelemetryEvent).processedAt = some 0 :=
  ⟨by decide, by decide,
    (fetched_samples_marked_unconditionally defaultAnalyzer (fun _ => false)
        scanDb95 0 0).1
      ev95 (by decide) { ev95 with processedAt := some 0 } (by decide) rfl⟩

/-! ## The missing Event Bus publish step -/

lemma processOneEvent_published (ra : RiskAnalyzer) (ok : RiskEvent → Bool)
    (now : Int) (db : EngineDB) (e : TelemetryEvent) :
    (processOneEvent ra ok now db e).published = db.published := by
  rw [processOneEvent_eq]

lemma foldl_processOneEvent_published (ra : RiskAnalyzer) (ok : RiskEvent → Bool)
    (now : Int) :
    ∀ (events : List TelemetryEvent) (db : EngineDB),
      (events.foldl (processOneEvent ra ok now) db).published = db.published := by
  intro events
  induction events with
  | nil => intro db; rfl
  | cons e es ih =>
    intro db
    rw [List.foldl_cons, ih, processOneEvent_published]

lemma analyzeEvent_ev125_eq :
    defaultAnalyzer.analyzeEvent ev125 = [risk125] := by
  norm_num [RiskAnalyzer.analyzeEvent, defaultAnalyzer, ev125, ev95, risk125,
    speedingFinding]

/-- C1 (code behavior): a Batch Scanner run never publishes anything to
the Event Bus; in particular the run over the 125 mph sample persists a
finding and an alert while the published list stays empty, so the
Connection Hub is never handed the finding or the alert. -/
theorem scanner_publishes_nothing :
    (∀ (ra : RiskAnalyzer) (persistOk : RiskEvent → Bool) (now : Int) (db : EngineDB),
      (processUnprocessedTelemetry ra persistOk now db).published = db.published) ∧
    (processUnprocessedTelemetry defaultAnalyzer (fun _ => true) 0 scanDb125).riskEvents =
      [risk125] ∧
    (processUnprocessedTelemetry defaultAnalyzer (fun _ => true) 0 scanDb125).alerts.length
      = 1 ∧
    (processUnprocessedTelemetry defaultAnalyzer (fun _ => true) 0 scanDb125).published
      = [] := by
  refine ⟨fun ra ok now db => foldl_processOneEvent_published ra ok now _ db, ?_, ?_, ?_⟩ <;>
    · show _ = _
      have hfetch : fetchUnprocessed scanDb125 0 = [ev125] := rfl
      unfold processUnprocessedTelemetry
      rw [hfetch, List.foldl_cons, List.foldl_nil, processOneEvent_eq,
        analyzeEvent_ev125_eq]
      rfl

/-! ## Idempotence of the Score Aggregator run -/

/-- Agreement of two optional DriverScore rows on every stored field
except the lastUpdated timestamp. -/
def sameScoreExceptLastUpdated : Option DriverScore → Option DriverScore → Prop
  | none, none => True
  | some a, some b =>
      a.driverId = b.driverId ∧ a.overallScore = b.overallScore ∧
      a.safetyScore = b.safetyScore ∧ a.efficiencyScore = b.efficiencyScore ∧
      a.totalMiles = b.totalMiles ∧ a.totalTrips = b.totalTrips ∧
      a.riskEvents = b.riskEvents
  | _, _ => False

lemma sameScoreExceptLastUpdated_refl (x : Option DriverScore) :
    sameScoreExceptLastUpdated x x := by
  cases x <;> simp [sameScoreExceptLastUpdated]

/-- The effect of one upsert of the aggregator on the table entry of
driver j. -/
def upsertScoreAt (counts : Nat → Int) (t : Int) (x : Option DriverScore)
    (j : Nat) : Option DriverScore :=
  match x with
  | none => some { calculateDriverScore (counts j) t with driverId := j }
  | some old => some (gormUpdatesScore old (calculateDriverScore (counts j) t))

lemma scoreOneDriver_scores (counts : Nat → Int) (t : Int) (db : ScoreDB)
    (d : Driver) (j : Nat) :
    (scoreOneDriver counts t db d).scores j =
      if j = d.id then upsertScoreAt counts t (db.scores j) j else db.scores j := by
  unfold scoreOneDriver upsertScoreAt
  by_cases h : j = d.id
  · subst h
    simp
  · simp [h, (by simpa using h : (j == d.id) = false)]

lemma foldl_scoreOneDriver_scores (counts : Nat → Int) (t : Int) :
    ∀ (ds : List Driver) (db : ScoreDB) (j : Nat),
      (ds.map Driver.id).Nodup →
      (ds.foldl (scoreOneDriver counts t) db).scores j =
        if j ∈ ds.map Driver.id then upsertScoreAt counts t (db.scores j) j
        else db.scores j := by
  intro ds
  induction ds with
  | nil =>
    intro db j _
    simp
  | cons d ds ih =>
    intro db j hnd
    rw [List.map_cons, List.nodup_cons] at hnd
    rw [List.foldl_cons, ih _ j hnd.2, scoreOneDriver_scores]
    by_cases hj : j = d.id
    · subst hj
      simp [hnd.1]
    · simp [hj]

lemma scoreOneDriver_drivers_shape (counts : Nat → Int) (t : Int) (db : ScoreDB)
    (d : Driver) :
    ((scoreOneDriver counts t db d).drivers).map (fun x => (x.id, x.status)) =
      db.drivers.map (fun x => (x.id, x.status)) := by
  unfold scoreOneDriver
  rw [List.map_map]
  refine List.map_congr_left ?_
  intro x _
  by_cases h : x.id = d.id <;> simp [h]

lemma foldl_scoreOneDriver_drivers_shape (counts : Nat → Int) (t : Int) :
    ∀ (ds : List Driver) (db : ScoreDB),
      ((ds.foldl (scoreOneDriver counts t) db).drivers).map (fun x => (x.id, x.status)) =
        db.drivers.map (fun x => (x.id, x.status)) := by
  intro ds
  induction ds with
  | nil => intro db; rfl
  | cons d ds ih =>
    intro db
    rw [List.foldl_cons, ih, scoreOneDriver_drivers_shape]

/-- The identifiers of the drivers the aggregator run touches. -/
def activeIds (db : ScoreDB) : List Nat :=
  (db.drivers.filter (fun d => d.status == "active")).map Driver.id

lemma activeIds_eq_of_shape {db1 db2 : ScoreDB}
    (h : db1.drivers.map (fun x => (x.id, x.status)) =
      db2.drivers.map (fun x => (x.id, x.status))) :
    activeIds db1 = activeIds db2 := by
  have key : ∀ (l : List Driver),
      (l.filter (fun d => d.status == "active")).map Driver.id =
        ((l.map (fun x => (x.id, x.status))).filter
          (fun p => p.2 == "active")).map Prod.fst := by
    intro l
    induction l with
    | nil => rfl
    | cons a l ih =>
      by_cases ha : (a.status == "active") = true <;>
        simp [List.filter_cons, ha, ih]
  unfold activeIds
  rw [key, key, h]

lemma upsertScoreAt_idem (counts : Nat → Int) (t1 t2 : Int)
    (x : Option DriverScore) (j : Nat) :
    sameScoreExceptLastUpdated (upsertScoreAt counts t1 x j)
      (upsertScoreAt counts t2 (upsertScoreAt counts t1 x j) j) := by
  cases x with
  | none =>
    simp only [upsertScoreAt, sameScoreExceptLastUpdated, gormUpdatesScore,
      calculateDriverScore]
    refine ⟨?_, ?_, ?_, ?_, ?_, ?_, ?_⟩ <;> split_ifs <;> simp_all
  | some old =>
    simp only [upsertScoreAt, sameScoreExceptLastUpdated, gormUpdatesScore,
      calculateDriverScore]
    refine ⟨?_, ?_, ?_, ?_, ?_, ?_, ?_⟩ <;> split_ifs <;> simp_all

/-- C7: with the windowed risk-event counts unchanged between two runs
(no new findings), the second Score Aggregator run leaves every stored
DriverScore field except lastUpdated exactly as the first run left it,
for every driver id, given that driver ids are unique. -/
theorem updateDriverScores_idempotent (db : ScoreDB) (counts : Nat → Int)
    (t1 t2 : Int) (hnodup : (db.drivers.map Driver.id).Nodup) (j : Nat) :
    sameScoreExceptLastUpdated
      ((updateDriverScores counts t1 db).scores j)
      ((updateDriverScores counts t2 (updateDriverScores counts t1 db)).scores j) := by
  have hnd : (activeIds db).Nodup := by
    unfold activeIds
    exact hnodup.sublist ((List.filter_sublist db.drivers).map Driver.id)
  have hshape : ((updateDriverScores counts t1 db).drivers).map
      (fun x => (x.id, x.status)) = db.drivers.map (fun x => (x.id, x.status)) :=
    foldl_scoreOneDriver_drivers_shape counts t1 _ db
  have hids : activeIds (updateDriverScores counts t1 db) = activeIds db :=
    activeIds_eq_of_shape hshape
  have h1 : (updateDriverScores counts t1 db).scores j =
      if j ∈ activeIds db then upsertScoreAt counts t1 (db.scores j) j
      else db.scores j :=
    foldl_scoreOneDriver_scores counts t1 _ db j hnd
  have hnd2 : (activeIds (updateDriverScores counts t1 db)).Nodup := by
    rw [hids]
    exact hnd
  have h2 : (updateDriverScores counts t2 (updateDriverScores counts t1 db)).scores j =
      if j ∈ activeIds (updateDriverScores counts t1 db) then
        upsertScoreAt counts t2 ((updateDriverScores counts t1 db).scores j) j
      else (updateDriverScores counts t1 db).scores j :=
    foldl_scoreOneDriver_scores counts t2 _ _ j hnd2
  rw [h2, hids, h1]
  by_cases hj : j ∈ activeIds db
  · simp only [if_pos hj]
    exact upsertScoreAt_idem counts t1 t2 (db.scores j) j
  · simp only [if_neg hj]
    exact sameScoreExceptLastUpdated_refl _

/-- A driver table with one active driver for the C7 witness. -/
def scoreDbOne : ScoreDB :=
  { drivers := [{ id := 1, status := "active", riskScore := 0 }],
    scores := fun _ => none }

/-- The windowed risk-event count oracle used in the C7 witness. -/
def countsSix : Nat → Int := fun _ => 6

/-- Witness for C7: two aggregator runs at times 5 and 9 over one active
driver with 6 windowed findings agree except on lastUpdated. -/
theorem updateDriverScores_idempotent_witness :
    (scoreDbOne.drivers.map Driver.id).Nodup ∧
    sameScoreExceptLastUpdated
      ((updateDriverScores countsSix 5 scoreDbOne).scores 1)
      ((updateDriverScores countsSix 9
        (updateDriverScores countsSix 5 scoreDbOne)).scores 1) :=
  ⟨by decide, updateDriverScores_idempotent scoreDbOne countsSix 5 9 (by decide) 1⟩

end FleetRisk
